import Mathlib

/-
  Verification development for the urbanhub cart-and-coupon pricing engine.

  Shallow embedding of:
  - src/src/models/coupon.model.js  (isValid, isApplicableToProducts, calculateDiscount)
  - src/src/models/cart.model.js    (calculateSubtotal, calculateFinalTotal, addItem,
                                     updateItemQuantity, removeItem, clearCart,
                                     applyCoupon, removeCoupon, mergeWith)
  - the cart controller             (validateStock, addToCart, getCart, applyCoupon)

  Conventions of the embedding:
  - Mongo ObjectIds are modelled as Nat; id.toString() comparisons become equality.
  - Dates are modelled as Int (milliseconds since epoch); the implicit "new Date()"
    inside coupon methods becomes an explicit `now` parameter.
  - Money is in whole currency units (Nat); the source computes
    Math.round((s * v) / 100) on nonnegative integers, which equals (s*v + 50) / 100
    in natural division.
  - calculateDiscount in the source returns EITHER the bare number 0 (when the coupon
    is invalid or the applicable subtotal is 0) OR an object
    {discountAmount, applicableSubtotal, applicableItems}. This union is modelled by
    the inductive DiscountResult. A JavaScript property access
    `discountCalculation.discountAmount` on the bare number yields undefined, which is
    modelled by the Option-valued accessor DiscountResult.discountAmount returning none.
    Consequently a stored cart coupon has an Option Nat discountAmount (none models the
    undefined that the source can store), and the derived cart fields totalDiscount and
    finalTotal are Option-valued (none models the NaN that undefined arithmetic yields:
    Math.max(0, subtotal - undefined) is NaN).
-/

namespace UrbanHub

/-- A product as seen by the cart code: the fields selected from the catalog
(title, sku, stock, isActive, price) plus its id. -/
structure Product where
  id : Nat
  title : String
  sku : String
  price : Nat
  stock : Nat
  isActive : Bool
  deriving DecidableEq

/-- A cart line item (cartItemSchema): system-generated item id, product reference,
snapshot title, quantity and unit price captured at add time. -/
structure CartItem where
  itemId : Nat
  productId : Nat
  title : String
  quantity : Nat
  priceAtAdd : Nat
  deriving DecidableEq

/-- The applied-coupon snapshot stored on a cart (cartCouponSchema).
discountAmount is Option-valued: none models the JavaScript undefined that the
source stores when applyCoupon receives the bare-number 0 from calculateDiscount. -/
structure CartCoupon where
  code : String
  discountType : String
  discountValue : Nat
  discountAmount : Option Nat
  applicableProducts : List Nat
  deriving DecidableEq

/-- A cart (cartSchema): line items, at most one applied coupon, and the derived
totals. totalDiscount is none when the stored coupon has an undefined amount;
finalTotal is none when that undefined propagates to NaN. -/
structure Cart where
  items : List CartItem
  subtotal : Nat
  coupon : Option CartCoupon
  totalDiscount : Option Nat
  finalTotal : Option Int
  deriving DecidableEq

/-- A live coupon document (couponSchema). maxUsage none models the null default. -/
structure Coupon where
  code : String
  discountType : String
  discountValue : Nat
  applicableProducts : List Nat
  startDate : Int
  endDate : Int
  isActive : Bool
  usageCount : Nat
  maxUsage : Option Nat
  deriving DecidableEq

/-- couponSchema.methods.isValid: active, date inside [startDate, endDate]
(both comparisons inclusive in the source), and the usage check
`!this.maxUsage || this.usageCount < this.maxUsage` - note that a maxUsage of 0
is falsy in JavaScript, so it counts as unlimited exactly like null. -/
def isValid (c : Coupon) (now : Int) : Bool :=
  let isDateValid := decide (c.startDate ≤ now) && decide (now ≤ c.endDate)
  let isUsageValid :=
    match c.maxUsage with
    | none => true
    | some m => m == 0 || decide (c.usageCount < m)
  c.isActive && isDateValid && isUsageValid

/-- couponSchema.methods.isApplicableToProducts: at-least-one-match between the
given product ids and the applicable product set. -/
def isApplicableToProducts (c : Coupon) (productIds : List Nat) : Bool :=
  productIds.any (fun pid => c.applicableProducts.contains pid)

/-- The union type returned by couponSchema.methods.calculateDiscount: either the
bare number 0 (invalid coupon, or applicable subtotal 0) or the result object. -/
inductive DiscountResult where
  | scalarZero
  | record (discountAmount : Nat) (applicableSubtotal : Nat)
      (applicableItems : List CartItem)
  deriving DecidableEq

/-- JavaScript property access `r.discountAmount`: undefined (none) on the bare
number, the stored field on the object. -/
def DiscountResult.discountAmount : DiscountResult → Option Nat
  | .scalarZero => none
  | .record d _ _ => some d

/-- JavaScript property access `r.applicableItems.length`: none models the
TypeError-producing undefined on the bare number. -/
def DiscountResult.applicableItemsCount : DiscountResult → Option Nat
  | .scalarZero => none
  | .record _ _ items => some items.length

/-- Whether the result is the object form. -/
def DiscountResult.isRecord : DiscountResult → Bool
  | .scalarZero => false
  | .record _ _ _ => true

/-- The items.reduce((total, item) => total + item.priceAtAdd * item.quantity, 0)
pattern used by calculateSubtotal and calculateDiscount. -/
def itemsSubtotal (items : List CartItem) : Nat :=
  items.foldl (fun total item => total + item.priceAtAdd * item.quantity) 0

/-- Math.round(n / 100) for a natural n: round half away from zero. -/
def jsRound100 (n : Nat) : Nat := (n + 50) / 100

/-- couponSchema.methods.calculateDiscount: returns the bare 0 when the coupon is
not valid; sums priceAtAdd * quantity over the items whose productId is in the
applicable set; returns the bare 0 when that sum is 0; otherwise returns the
result object with discountAmount = Math.round(applicableSubtotal * value / 100)
for the percentage type (any other type would leave the initial 0). -/
def calculateDiscount (c : Coupon) (now : Int) (cartItems : List CartItem) :
    DiscountResult :=
  if !(isValid c now) then .scalarZero
  else
    let applicableItems :=
      cartItems.filter (fun item => c.applicableProducts.contains item.productId)
    let applicableSubtotal := itemsSubtotal applicableItems
    if applicableSubtotal == 0 then .scalarZero
    else
      let discountAmount :=
        if c.discountType == "percentage" then
          jsRound100 (applicableSubtotal * c.discountValue)
        else 0
      .record discountAmount applicableSubtotal applicableItems

/-- The expression `this.coupon ? this.coupon.discountAmount : 0` from
calculateFinalTotal: some 0 with no coupon, the stored (possibly undefined)
amount otherwise. -/
def couponDiscount : Option CartCoupon → Option Nat
  | none => some 0
  | some cp => cp.discountAmount

/-- cartSchema.methods.calculateFinalTotal (which first runs calculateSubtotal):
subtotal from the items, totalDiscount from the coupon, and
finalTotal = Math.max(0, subtotal - totalDiscount); none propagates the NaN that
an undefined discount amount produces. -/
def calculateFinalTotal (c : Cart) : Cart :=
  let subtotal := itemsSubtotal c.items
  let totalDiscount := couponDiscount c.coupon
  { c with
    subtotal := subtotal
    totalDiscount := totalDiscount
    finalTotal := totalDiscount.map (fun d => max 0 ((subtotal : Int) - (d : Int))) }

/-- Increment the quantity of the first item matching the product id
(the findIndex branch of addItem). -/
def bumpQuantity : List CartItem → Nat → Nat → List CartItem
  | [], _, _ => []
  | item :: rest, pid, q =>
    if item.productId == pid then { item with quantity := item.quantity + q } :: rest
    else item :: bumpQuantity rest pid q

/-- cartSchema.methods.addItem: increment the quantity of an existing item for the
same productId (price not refreshed), or append a fresh snapshot item; then
recompute totals. newItemId stands for the mongoose-generated _id of a new item. -/
def Cart.addItem (c : Cart) (productData : Product) (quantity : Nat) (price : Nat)
    (newItemId : Nat) : Cart :=
  if c.items.any (fun item => item.productId == productData.id) then
    calculateFinalTotal { c with items := bumpQuantity c.items productData.id quantity }
  else
    calculateFinalTotal
      { c with
        items := c.items ++
          [{ itemId := newItemId, productId := productData.id,
             title := productData.title, quantity := quantity, priceAtAdd := price }] }

/-- cartSchema.methods.removeItem: filter the item out, recompute; then clear the
coupon when applicable products no longer remain (non-empty cart) or when the
cart became empty, recomputing again in either clearing branch. -/
def Cart.removeItem (c : Cart) (itemId : Nat) : Cart :=
  let c1 := calculateFinalTotal
    { c with items := c.items.filter (fun item => !(item.itemId == itemId)) }
  match c1.coupon with
  | some cp =>
    if c1.items.length > 0 then
      if c1.items.any (fun item =>
          cp.applicableProducts.any (fun pid => pid == item.productId)) then c1
      else calculateFinalTotal { c1 with coupon := none }
    else calculateFinalTotal { c1 with coupon := none }
  | none =>
    if c1.items.length == 0 then calculateFinalTotal { c1 with coupon := none }
    else c1

/-- Set the quantity of the first item matching the item id
(the `this.items.id(itemId)` mutation in updateItemQuantity). -/
def setQtyFirst : List CartItem → Nat → Nat → List CartItem
  | [], _, _ => []
  | item :: rest, itemId, q =>
    if item.itemId == itemId then { item with quantity := q } :: rest
    else item :: setQtyFirst rest itemId q

/-- cartSchema.methods.updateItemQuantity: a newQuantity of at most 0 delegates to
removeItem; otherwise the matching item (when present) gets the new quantity and
totals are recomputed; an absent item id leaves the cart untouched. -/
def Cart.updateItemQuantity (c : Cart) (itemId : Nat) (newQuantity : Int) : Cart :=
  if newQuantity ≤ 0 then c.removeItem itemId
  else if c.items.any (fun item => item.itemId == itemId) then
    calculateFinalTotal
      { c with items := setQtyFirst c.items itemId newQuantity.toNat }
  else c

/-- cartSchema.methods.clearCart. -/
def Cart.clearCart (c : Cart) : Cart :=
  calculateFinalTotal { c with items := [], coupon := none }

/-- cartSchema.methods.applyCoupon: store the snapshot (code, type, value,
discountAmount read off the discount calculation, frozen applicable product
list) and recompute. -/
def Cart.applyCoupon (c : Cart) (couponData : Coupon)
    (discountCalculation : DiscountResult) : Cart :=
  calculateFinalTotal
    { c with
      coupon := some
        { code := couponData.code
          discountType := couponData.discountType
          discountValue := couponData.discountValue
          discountAmount := discountCalculation.discountAmount
          applicableProducts := couponData.applicableProducts } }

/-- cartSchema.methods.removeCoupon. -/
def Cart.removeCoupon (c : Cart) : Cart :=
  calculateFinalTotal { c with coupon := none }

/-- One step of the mergeWith loop: the first item of the accumulator matching the
incoming productId gets the summed quantity and the incoming price; with no
match the incoming item is appended as-is. -/
def mergeInsert (items : List CartItem) (otherItem : CartItem) : List CartItem :=
  match items with
  | [] => [otherItem]
  | item :: rest =>
    if item.productId == otherItem.productId then
      { item with
        quantity := item.quantity + otherItem.quantity
        priceAtAdd := otherItem.priceAtAdd } :: rest
    else item :: mergeInsert rest otherItem

/-- cartSchema.methods.mergeWith: fold every item of the other cart into this one,
always drop the coupon, recompute. (The null-cart guard at the top of the source
method has no counterpart here because both arguments are carts.) -/
def Cart.mergeWith (c : Cart) (otherCart : Cart) : Cart :=
  calculateFinalTotal
    { c with items := otherCart.items.foldl mergeInsert c.items, coupon := none }

/-- The derived-field consistency invariant of a cart (spec section 8): subtotal
is the item sum, totalDiscount mirrors the coupon amount (0 without a coupon),
finalTotal is max(0, subtotal - totalDiscount) lifted over the possible
undefined amount, and finalTotal is never a negative number. -/
def cartInvariant (c : Cart) : Prop :=
  c.subtotal = itemsSubtotal c.items ∧
  c.totalDiscount = couponDiscount c.coupon ∧
  c.finalTotal = c.totalDiscount.map (fun d => max 0 ((c.subtotal : Int) - (d : Int))) ∧
  0 ≤ c.finalTotal.getD 0

theorem calculateFinalTotal_items (c : Cart) : (calculateFinalTotal c).items = c.items := rfl

theorem calculateFinalTotal_coupon (c : Cart) :
    (calculateFinalTotal c).coupon = c.coupon := rfl

theorem cartInvariant_calculateFinalTotal (c : Cart) :
    cartInvariant (calculateFinalTotal c) := by
  refine ⟨rfl, rfl, rfl, ?_⟩
  show 0 ≤ (((couponDiscount c.coupon).map
    (fun d => max 0 ((itemsSubtotal c.items : Int) - (d : Int)))).getD 0)
  cases couponDiscount c.coupon with
  | none => simp
  | some d => simp

instance (c : Cart) : Decidable (cartInvariant c) := by
  unfold cartInvariant
  infer_instance

theorem cartInvariant_addItem (c : Cart) (productData : Product)
    (quantity price newItemId : Nat) :
    cartInvariant (c.addItem productData quantity price newItemId) := by
  unfold Cart.addItem
  split <;> apply cartInvariant_calculateFinalTotal

theorem cartInvariant_removeItem (c : Cart) (itemId : Nat) :
    cartInvariant (c.removeItem itemId) := by
  simp only [Cart.removeItem]
  split <;> split <;> (try split) <;> apply cartInvariant_calculateFinalTotal

theorem cartInvariant_updateItemQuantity (c : Cart) (h : cartInvariant c)
    (itemId : Nat) (newQuantity : Int) :
    cartInvariant (c.updateItemQuantity itemId newQuantity) := by
  unfold Cart.updateItemQuantity
  split
  · apply cartInvariant_removeItem
  · split
    · apply cartInvariant_calculateFinalTotal
    · exact h

theorem cartInvariant_clearCart (c : Cart) : cartInvariant c.clearCart :=
  cartInvariant_calculateFinalTotal _

theorem cartInvariant_applyCoupon (c : Cart) (couponData : Coupon)
    (discountCalculation : DiscountResult) :
    cartInvariant (c.applyCoupon couponData discountCalculation) :=
  cartInvariant_calculateFinalTotal _

theorem cartInvariant_removeCoupon (c : Cart) : cartInvariant c.removeCoupon :=
  cartInvariant_calculateFinalTotal _

theorem cartInvariant_mergeWith (c otherCart : Cart) :
    cartInvariant (c.mergeWith otherCart) :=
  cartInvariant_calculateFinalTotal _

/-- C1: every Cart Engine operation (addItem, updateItemQuantity, removeItem,
clearCart, applyCoupon, removeCoupon, mergeWith), applied to a cart whose derived
fields are consistent, produces a cart in which subtotal is the sum of
priceAtAdd times quantity over the items, totalDiscount mirrors the applied
coupon discount amount (0 without a coupon), and finalTotal is
max(0, subtotal - totalDiscount), hence never a negative number. -/
theorem cart_engine_totals_invariant
    (c : Cart) (h : cartInvariant c) (productData : Product)
    (quantity price newItemId itemId1 itemId2 : Nat) (newQuantity : Int)
    (couponData : Coupon) (discountCalculation : DiscountResult) (otherCart : Cart) :
    cartInvariant (c.addItem productData quantity price newItemId) ∧
    cartInvariant (c.updateItemQuantity itemId1 newQuantity) ∧
    cartInvariant (c.removeItem itemId2) ∧
    cartInvariant c.clearCart ∧
    cartInvariant (c.applyCoupon couponData discountCalculation) ∧
    cartInvariant c.removeCoupon ∧
    cartInvariant (c.mergeWith otherCart) :=
  ⟨cartInvariant_addItem c productData quantity price newItemId,
   cartInvariant_updateItemQuantity c h itemId1 newQuantity,
   cartInvariant_removeItem c itemId2,
   cartInvariant_clearCart c,
   cartInvariant_applyCoupon c couponData discountCalculation,
   cartInvariant_removeCoupon c,
   cartInvariant_mergeWith c otherCart⟩

/-- An empty consistent cart, used to instantiate hypotheses. -/
def cartEmptyW : Cart :=
  { items := [], subtotal := 0, coupon := none, totalDiscount := some 0,
    finalTotal := some 0 }

/-- A sample catalog product. -/
def productPlantW : Product :=
  { id := 1, title := "Plant", sku := "SKU1", price := 299, stock := 5,
    isActive := true }

/-- A live percentage coupon applicable to product 1, valid on the window
[0, 100] with unlimited usage. -/
def couponSAVE20 : Coupon :=
  { code := "SAVE20", discountType := "percentage", discountValue := 20,
    applicableProducts := [1], startDate := 0, endDate := 100, isActive := true,
    usageCount := 0, maxUsage := none }

theorem cart_engine_totals_invariant_witness :
    cartInvariant cartEmptyW ∧
    cartInvariant (cartEmptyW.addItem productPlantW 2 299 11) :=
  ⟨by decide,
   (cart_engine_totals_invariant cartEmptyW (by decide) productPlantW 2 299 11 1 1 0
      couponSAVE20 DiscountResult.scalarZero cartEmptyW).1⟩

/-- A coupon with a zero usage cap: JavaScript treats the 0 as falsy, so the
source skips the usage check entirely. -/
def couponMaxZero : Coupon :=
  { code := "CAP0", discountType := "percentage", discountValue := 10,
    applicableProducts := [1], startDate := 0, endDate := 100, isActive := true,
    usageCount := 7, maxUsage := some 0 }

/-- C4 counterexample: couponMaxZero is active, time 50 lies strictly inside its
window, its maxUsage is some 0 and its usageCount is 7, so the claimed condition
(maxUsage is null, or usageCount < maxUsage) is false - yet the source isValid
returns true, because `!this.maxUsage` is true for a 0 cap. -/
theorem isValid_claim_counterexample :
    isValid couponMaxZero 50 = true ∧
    ¬(couponMaxZero.isActive = true ∧ couponMaxZero.startDate ≤ (50 : Int) ∧
      (50 : Int) ≤ couponMaxZero.endDate ∧
      (couponMaxZero.maxUsage = none ∨
        ∀ m, couponMaxZero.maxUsage = some m → couponMaxZero.usageCount < m)) := by
  refine ⟨by decide, ?_⟩
  rintro ⟨-, -, -, h | h⟩
  · exact Option.noConfusion h
  · exact absurd (h 0 rfl) (by decide)

/-- C4 amended: isValid returns true iff the coupon is active, now lies in the
inclusive window [startDate, endDate], and the usage cap is null, or zero
(falsy, hence treated as unlimited), or usageCount is below it. -/
theorem isValid_characterization (c : Coupon) (now : Int) :
    isValid c now = true ↔
      (c.isActive = true ∧ c.startDate ≤ now ∧ now ≤ c.endDate ∧
        (c.maxUsage = none ∨ c.maxUsage = some 0 ∨
          ∃ m, c.maxUsage = some m ∧ c.usageCount < m)) := by
  unfold isValid
  cases hm : c.maxUsage with
  | none => simp [hm, and_assoc]
  | some m =>
    simp only [hm, Bool.and_eq_true, decide_eq_true_eq, Bool.or_eq_true,
      beq_iff_eq, Option.some.injEq, and_assoc]
    constructor
    · rintro ⟨ha, h1, h2, hu⟩
      rcases hu with hu | hu
      · exact ⟨ha, h1, h2, Or.inr (Or.inl (by rw [hu]))⟩
      · exact ⟨ha, h1, h2, Or.inr (Or.inr ⟨m, rfl, hu⟩)⟩
    · rintro ⟨ha, h1, h2, hu⟩
      refine ⟨ha, h1, h2, ?_⟩
      rcases hu with hu | hu | ⟨m2, hm2, hu⟩
      · exact Option.noConfusion hu
      · exact Or.inl hu
      · exact Or.inr (hm2 ▸ hu)

theorem isValid_characterization_witness : isValid couponSAVE20 50 = true :=
  (isValid_characterization couponSAVE20 50).mpr
    ⟨rfl, by decide, by decide, Or.inl rfl⟩

theorem itemsSubtotal_eq_sum (items : List CartItem) :
    itemsSubtotal items =
      (items.map (fun item => item.priceAtAdd * item.quantity)).sum := by
  suffices h : ∀ n : Nat,
      items.foldl (fun total item => total + item.priceAtAdd * item.quantity) n =
        n + (items.map (fun item => item.priceAtAdd * item.quantity)).sum by
    simpa [itemsSubtotal] using h 0
  induction items with
  | nil => intro n; simp
  | cons i rest ih => intro n; simp [ih, add_assoc]

theorem filter_applicable_eq (c : Coupon) (cartItems : List CartItem) :
    cartItems.filter (fun item => c.applicableProducts.contains item.productId) =
      cartItems.filter (fun item => decide (item.productId ∈ c.applicableProducts)) := by
  apply List.filter_congr
  intro x _
  simp

/-- An inactive coupon, hence not valid at any time. -/
def couponInactive : Coupon :=
  { code := "OFF", discountType := "percentage", discountValue := 10,
    applicableProducts := [1], startDate := 0, endDate := 100, isActive := false,
    usageCount := 0, maxUsage := none }

/-- A one-line cart: product 1, quantity 2, unit price 299. -/
def itemsPlant2 : List CartItem :=
  [{ itemId := 1, productId := 1, title := "Plant", quantity := 2, priceAtAdd := 299 }]

/-- C2 counterexample: on a coupon that is not valid, calculateDiscount returns
the bare number 0, not a zero-discount object of the
{discountAmount, applicableSubtotal, applicableItems} shape. -/
theorem calculateDiscount_shape_counterexample :
    calculateDiscount couponInactive 50 itemsPlant2 = DiscountResult.scalarZero ∧
    (calculateDiscount couponInactive 50 itemsPlant2).isRecord = false := by decide

/-- C2 amended: for a percentage coupon, calculateDiscount returns the bare
number 0 when the coupon is not valid, and also when the applicable subtotal
(the sum of priceAtAdd times quantity over exactly the items whose productId is
in the applicable set) is 0; otherwise it returns the
{discountAmount, applicableSubtotal, applicableItems} object with
discountAmount = round(applicableSubtotal * discountValue / 100). -/
theorem calculateDiscount_spec (c : Coupon) (now : Int) (cartItems : List CartItem)
    (hty : c.discountType = "percentage") :
    (isValid c now = false → calculateDiscount c now cartItems = .scalarZero) ∧
    (isValid c now = true →
      ((cartItems.filter (fun item => item.productId ∈ c.applicableProducts)).map
          (fun item => item.priceAtAdd * item.quantity)).sum = 0 →
      calculateDiscount c now cartItems = .scalarZero) ∧
    (isValid c now = true →
      ((cartItems.filter (fun item => item.productId ∈ c.applicableProducts)).map
          (fun item => item.priceAtAdd * item.quantity)).sum ≠ 0 →
      calculateDiscount c now cartItems =
        .record
          ((((cartItems.filter (fun item => item.productId ∈ c.applicableProducts)).map
                (fun item => item.priceAtAdd * item.quantity)).sum *
              c.discountValue + 50) / 100)
          (((cartItems.filter (fun item => item.productId ∈ c.applicableProducts)).map
              (fun item => item.priceAtAdd * item.quantity)).sum)
          (cartItems.filter (fun item => item.productId ∈ c.applicableProducts))) := by
  refine ⟨?_, ?_, ?_⟩
  · intro hinv
    simp [calculateDiscount, hinv]
  · intro hv hz
    simp only [calculateDiscount, hv, Bool.not_true, Bool.false_eq_true, if_false]
    rw [filter_applicable_eq, itemsSubtotal_eq_sum]
    simp [hz]
  · intro hv hz
    simp only [calculateDiscount, hv, Bool.not_true, Bool.false_eq_true, if_false]
    rw [filter_applicable_eq, itemsSubtotal_eq_sum]
    simp [hz, hty, jsRound100]

/-- A one-line cart: product 1, quantity 3, unit price 299 (spec scenario 3). -/
def itemsPlant3 : List CartItem :=
  [{ itemId := 1, productId := 1, title := "Plant", quantity := 3, priceAtAdd := 299 }]

theorem calculateDiscount_spec_witness :
    calculateDiscount couponSAVE20 50 itemsPlant3 =
      DiscountResult.record 179 897 itemsPlant3 := by
  have h := (calculateDiscount_spec couponSAVE20 50 itemsPlant3 rfl).2.2
    (by decide) (by decide)
  exact h

theorem setQtyFirst_length (l : List CartItem) (itemId q : Nat) :
    (setQtyFirst l itemId q).length = l.length := by
  induction l with
  | nil => rfl
  | cons i rest ih =>
    simp only [setQtyFirst]
    split <;> simp [ih]

theorem setQtyFirst_exists (l : List CartItem) (itemId q : Nat)
    (h : ∃ item ∈ l, item.itemId = itemId) :
    ∃ item ∈ setQtyFirst l itemId q, item.itemId = itemId ∧ item.quantity = q := by
  induction l with
  | nil => simp at h
  | cons i rest ih =>
    simp only [setQtyFirst]
    by_cases hi : i.itemId = itemId
    · rw [if_pos (by simpa using hi)]
      exact ⟨{ i with quantity := q }, List.mem_cons_self _ _, hi, rfl⟩
    · rw [if_neg (by simpa using hi)]
      obtain ⟨j, hj, hjid⟩ := h
      rcases List.mem_cons.mp hj with h0 | h0
      · exact absurd (h0 ▸ hjid) hi
      · obtain ⟨k, hk, hkprop⟩ := ih ⟨j, h0, hjid⟩
        exact ⟨k, List.mem_cons_of_mem _ hk, hkprop⟩

theorem setQtyFirst_mem_of_ne (l : List CartItem) (itemId q : Nat) (item : CartItem)
    (hmem : item ∈ l) (hne : item.itemId ≠ itemId) :
    item ∈ setQtyFirst l itemId q := by
  induction l with
  | nil => cases hmem
  | cons i rest ih =>
    simp only [setQtyFirst]
    rcases List.mem_cons.mp hmem with h0 | h0
    · subst h0
      rw [if_neg (by simpa using hne)]
      exact List.mem_cons_self _ _
    · split
      · exact List.mem_cons_of_mem _ h0
      · exact List.mem_cons_of_mem _ (ih h0)

/-- C9: updateItemQuantity with a nonpositive quantity is exactly removeItem;
with a positive quantity it is a no-op on an absent item id, and on a present
item id it sets the quantity of the (first) matching item, keeps every other
item, preserves the item count, and recomputes the totals. -/
theorem updateItemQuantity_spec (c : Cart) (itemId : Nat) (newQuantity : Int) :
    (newQuantity ≤ 0 → c.updateItemQuantity itemId newQuantity = c.removeItem itemId) ∧
    (1 ≤ newQuantity →
      ((∀ item ∈ c.items, item.itemId ≠ itemId) →
        c.updateItemQuantity itemId newQuantity = c) ∧
      ((∃ item ∈ c.items, item.itemId = itemId) →
        cartInvariant (c.updateItemQuantity itemId newQuantity) ∧
        (c.updateItemQuantity itemId newQuantity).items.length = c.items.length ∧
        (∃ item ∈ (c.updateItemQuantity itemId newQuantity).items,
          item.itemId = itemId ∧ item.quantity = newQuantity.toNat) ∧
        ∀ item ∈ c.items, item.itemId ≠ itemId →
          item ∈ (c.updateItemQuantity itemId newQuantity).items)) := by
  constructor
  · intro hq
    simp [Cart.updateItemQuantity, hq]
  · intro hq
    have hq0 : ¬(newQuantity ≤ 0) := by omega
    constructor
    · intro habs
      have hany : (c.items.any (fun item => item.itemId == itemId)) = false := by
        simp only [List.any_eq_false]
        intro item hmem
        simpa using habs item hmem
      simp [Cart.updateItemQuantity, hq0, hany]
    · rintro ⟨item0, hmem0, hid0⟩
      have hany : (c.items.any (fun item => item.itemId == itemId)) = true := by
        simp only [List.any_eq_true]
        exact ⟨item0, hmem0, by simpa using hid0⟩
      have heq : c.updateItemQuantity itemId newQuantity =
          calculateFinalTotal
            { c with items := setQtyFirst c.items itemId newQuantity.toNat } := by
        simp [Cart.updateItemQuantity, hq0, hany]
      rw [heq]
      refine ⟨cartInvariant_calculateFinalTotal _, ?_, ?_, ?_⟩
      · exact setQtyFirst_length c.items itemId newQuantity.toNat
      · exact setQtyFirst_exists c.items itemId newQuantity.toNat ⟨item0, hmem0, hid0⟩
      · intro item hmem hne
        exact setQtyFirst_mem_of_ne c.items itemId newQuantity.toNat item hmem hne

/-- A two-line cart holding products 1 and 2, with consistent totals and no
coupon. -/
def cartTwoItemsW : Cart :=
  { items :=
      [{ itemId := 1, productId := 1, title := "Plant", quantity := 2, priceAtAdd := 299 },
       { itemId := 2, productId := 2, title := "Pot", quantity := 1, priceAtAdd := 500 }],
    subtotal := 1098, coupon := none, totalDiscount := some 0,
    finalTotal := some 1098 }

theorem updateItemQuantity_spec_witness :
    cartTwoItemsW.updateItemQuantity 9 5 = cartTwoItemsW :=
  ((updateItemQuantity_spec cartTwoItemsW 9 5).2 (by decide)).1 (by decide)

/-- C5: after removeItem on a cart with an applied coupon, the coupon is cleared
when the remaining items are empty, and also when they are non-empty but none of
them carries a productId from the coupon's frozen applicable-product set; the
derived totals are recomputed (consistent) in every case. -/
theorem removeItem_coupon_revalidation (c : Cart) (cp : CartCoupon) (itemId : Nat)
    (hcp : c.coupon = some cp) :
    (c.items.filter (fun item => !(item.itemId == itemId)) = [] →
      (c.removeItem itemId).coupon = none) ∧
    (c.items.filter (fun item => !(item.itemId == itemId)) ≠ [] →
      (∀ item ∈ c.items.filter (fun item => !(item.itemId == itemId)),
        item.productId ∉ cp.applicableProducts) →
      (c.removeItem itemId).coupon = none) ∧
    cartInvariant (c.removeItem itemId) := by
  have hcoup : (calculateFinalTotal
      { c with items := c.items.filter (fun item => !(item.itemId == itemId)) }).coupon
      = some cp := hcp
  refine ⟨?_, ?_, cartInvariant_removeItem c itemId⟩
  · intro hempty
    simp only [Cart.removeItem, hcoup]
    simp [calculateFinalTotal_items, hempty, calculateFinalTotal_coupon]
  · intro hne hnone
    have hlen : 0 < (c.items.filter (fun item => !(item.itemId == itemId))).length :=
      List.length_pos.mpr hne
    have hany : ((c.items.filter (fun item => !(item.itemId == itemId))).any
        (fun item => cp.applicableProducts.any (fun pid => pid == item.productId)))
        = false := by
      rw [List.any_eq_false]
      intro item hmem hp
      rw [List.any_eq_true] at hp
      obtain ⟨pid, hpidmem, hpe⟩ := hp
      rw [beq_iff_eq] at hpe
      exact hnone item hmem (hpe ▸ hpidmem)
    simp only [Cart.removeItem, hcoup]
    simp [calculateFinalTotal_items, hlen, hany, calculateFinalTotal_coupon]

/-- The applied-coupon snapshot of couponSAVE20 with the discount computed for
itemsPlant3 (spec scenario 3). -/
def cartCouponSnapW : CartCoupon :=
  { code := "SAVE20", discountType := "percentage", discountValue := 20,
    discountAmount := some 179, applicableProducts := [1] }

/-- The scenario-3 cart: product 1, quantity 3 at 299, coupon SAVE20 applied. -/
def cartCouponW : Cart :=
  { items := itemsPlant3, subtotal := 897, coupon := some cartCouponSnapW,
    totalDiscount := some 179, finalTotal := some 718 }

theorem removeItem_coupon_revalidation_witness :
    (cartCouponW.removeItem 1).coupon = none :=
  (removeItem_coupon_revalidation cartCouponW cartCouponSnapW 1 rfl).1 (by decide)

/-- Total quantity held for a product id across a list of items. -/
def qtyOf (pid : Nat) : List CartItem → Nat
  | [] => 0
  | item :: rest => (if item.productId = pid then item.quantity else 0) + qtyOf pid rest

/-- The product ids of an item list are pairwise distinct. -/
def pidsNodup (items : List CartItem) : Prop :=
  (items.map (fun item => item.productId)).Nodup

instance (items : List CartItem) : Decidable (pidsNodup items) := by
  unfold pidsNodup
  infer_instance

theorem qtyOf_mergeInsert (items : List CartItem) (o : CartItem) (pid : Nat) :
    qtyOf pid (mergeInsert items o) =
      qtyOf pid items + (if o.productId = pid then o.quantity else 0) := by
  induction items with
  | nil => simp [mergeInsert, qtyOf]
  | cons i rest ih =>
    by_cases hip : i.productId = o.productId
    · simp only [mergeInsert, if_pos (show (i.productId == o.productId) = true by
        simpa using hip)]
      by_cases hp : i.productId = pid
      · have hop : o.productId = pid := hip ▸ hp
        simp only [qtyOf, if_pos hp, if_pos hop]
        omega
      · have hop : ¬(o.productId = pid) := fun h => hp (hip.trans h)
        simp only [qtyOf, if_neg hp, if_neg hop]
        omega
    · simp only [mergeInsert, if_neg (show ¬((i.productId == o.productId) = true) by
        simpa using hip)]
      simp only [qtyOf, ih]
      omega

theorem qtyOf_foldl_mergeInsert (os acc : List CartItem) (pid : Nat) :
    qtyOf pid (os.foldl mergeInsert acc) = qtyOf pid acc + qtyOf pid os := by
  induction os generalizing acc with
  | nil => simp [qtyOf]
  | cons o rest ih =>
    simp only [List.foldl_cons, qtyOf]
    rw [ih, qtyOf_mergeInsert]
    omega

theorem mem_mergeInsert_of_pid_ne (items : List CartItem) (o j : CartItem)
    (hj : j ∈ items) (hne : j.productId ≠ o.productId) : j ∈ mergeInsert items o := by
  induction items with
  | nil => cases hj
  | cons i rest ih =>
    simp only [mergeInsert]
    rcases List.mem_cons.mp hj with h0 | h0
    · subst h0
      rw [if_neg (by simpa using hne)]
      exact List.mem_cons_self _ _
    · split
      · exact List.mem_cons_of_mem _ h0
      · exact List.mem_cons_of_mem _ (ih h0)

theorem exists_mem_mergeInsert (items : List CartItem) (o : CartItem) :
    ∃ j ∈ mergeInsert items o,
      j.productId = o.productId ∧ j.priceAtAdd = o.priceAtAdd := by
  induction items with
  | nil => exact ⟨o, List.mem_cons_self _ _, rfl, rfl⟩
  | cons i rest ih =>
    simp only [mergeInsert]
    by_cases hip : i.productId = o.productId
    · rw [if_pos (by simpa using hip)]
      exact ⟨_, List.mem_cons_self _ _, hip, rfl⟩
    · rw [if_neg (by simpa using hip)]
      obtain ⟨j, hj, hprop⟩ := ih
      exact ⟨j, List.mem_cons_of_mem _ hj, hprop⟩

theorem mem_foldl_mergeInsert_of_pid_notin (os : List CartItem) (acc : List CartItem)
    (j : CartItem) (hj : j ∈ acc) (h : ∀ o ∈ os, j.productId ≠ o.productId) :
    j ∈ os.foldl mergeInsert acc := by
  induction os generalizing acc with
  | nil => simpa using hj
  | cons o rest ih =>
    simp only [List.foldl_cons]
    exact ih (mergeInsert acc o)
      (mem_mergeInsert_of_pid_ne acc o j hj (h o (List.mem_cons_self _ _)))
      (fun o2 ho2 => h o2 (List.mem_cons_of_mem _ ho2))

theorem pid_mem_of_mem_mergeInsert (items : List CartItem) (o j : CartItem)
    (hj : j ∈ mergeInsert items o) :
    j.productId ∈ items.map (fun item => item.productId) ∨
      j.productId = o.productId := by
  induction items with
  | nil =>
    simp only [mergeInsert] at hj
    rcases List.mem_singleton.mp hj with rfl
    exact Or.inr rfl
  | cons i rest ih =>
    simp only [mergeInsert] at hj
    split at hj
    · rcases List.mem_cons.mp hj with rfl | h0
      · exact Or.inl (by simp)
      · exact Or.inl (by simp [List.mem_map_of_mem _ h0])
    · rcases List.mem_cons.mp hj with rfl | h0
      · exact Or.inl (by simp)
      · rcases ih h0 with hmem | heq
        · exact Or.inl (by simp only [List.map_cons]; exact List.mem_cons_of_mem _ hmem)
        · exact Or.inr heq

theorem mergeInsert_of_not_match (acc : List CartItem) (o : CartItem)
    (h : ∀ j ∈ acc, j.productId ≠ o.productId) : mergeInsert acc o = acc ++ [o] := by
  induction acc with
  | nil => rfl
  | cons i rest ih =>
    simp only [mergeInsert]
    rw [if_neg (by simpa using h i (List.mem_cons_self _ _))]
    rw [ih (fun j hj => h j (List.mem_cons_of_mem _ hj))]
    rfl

theorem exists_price_foldl (os acc : List CartItem)
    (hnd : (os.map (fun item => item.productId)).Nodup) (i : CartItem) (hi : i ∈ os) :
    ∃ j ∈ os.foldl mergeInsert acc,
      j.productId = i.productId ∧ j.priceAtAdd = i.priceAtAdd := by
  induction os generalizing acc with
  | nil => cases hi
  | cons o rest ih =>
    have hpair : o.productId ∉ rest.map (fun item => item.productId) ∧
        (rest.map (fun item => item.productId)).Nodup := by
      rw [List.map_cons, List.nodup_cons] at hnd
      exact hnd
    simp only [List.foldl_cons]
    rcases List.mem_cons.mp hi with rfl | h0
    · obtain ⟨j, hj, hjp, hjprice⟩ := exists_mem_mergeInsert acc i
      refine ⟨j, ?_, hjp, hjprice⟩
      apply mem_foldl_mergeInsert_of_pid_notin rest (mergeInsert acc i) j hj
      intro o2 ho2 hcontra
      apply hpair.1
      rw [← hjp, hcontra]
      exact List.mem_map_of_mem _ ho2
    · exact ih (mergeInsert acc o) hpair.2 h0

theorem mem_foldl_mergeInsert_append (os acc : List CartItem)
    (hnd : (os.map (fun item => item.productId)).Nodup) (i : CartItem) (hi : i ∈ os)
    (hacc : ∀ j ∈ acc, j.productId ≠ i.productId) :
    i ∈ os.foldl mergeInsert acc := by
  induction os generalizing acc with
  | nil => cases hi
  | cons o rest ih =>
    have hpair : o.productId ∉ rest.map (fun item => item.productId) ∧
        (rest.map (fun item => item.productId)).Nodup := by
      rw [List.map_cons, List.nodup_cons] at hnd
      exact hnd
    simp only [List.foldl_cons]
    rcases List.mem_cons.mp hi with rfl | h0
    · have hin : i ∈ mergeInsert acc i := by
        rw [mergeInsert_of_not_match acc i hacc]
        simp
      apply mem_foldl_mergeInsert_of_pid_notin rest _ i hin
      intro o2 ho2 hcontra
      apply hpair.1
      rw [hcontra]
      exact List.mem_map_of_mem _ ho2
    · apply ih (mergeInsert acc o) hpair.2 h0
      intro j hj
      rcases pid_mem_of_mem_mergeInsert acc o j hj with hmem | heq
      · obtain ⟨j2, hj2, hj2e⟩ := List.mem_map.mp hmem
        intro hcontra
        exact hacc j2 hj2 (hj2e.trans hcontra)
      · rw [heq]
        intro hcontra
        apply hpair.1
        rw [hcontra]
        exact List.mem_map_of_mem _ h0

/-- C6: mergeWith always clears the coupon of the receiving cart and recomputes
its totals; per product id the merged quantity is the sum of the quantities of
the two carts; when the merged-in cart has pairwise distinct product ids, every
merged-in item ends up represented by an item carrying the merged-in price (the
other cart's price wins), and a merged-in item whose product id was absent from
the receiving cart is appended as-is. -/
theorem mergeWith_spec (c otherCart : Cart) (hnd : pidsNodup otherCart.items) :
    (c.mergeWith otherCart).coupon = none ∧
    cartInvariant (c.mergeWith otherCart) ∧
    (∀ pid, qtyOf pid (c.mergeWith otherCart).items =
      qtyOf pid c.items + qtyOf pid otherCart.items) ∧
    (∀ item ∈ otherCart.items, ∃ j ∈ (c.mergeWith otherCart).items,
      j.productId = item.productId ∧ j.priceAtAdd = item.priceAtAdd) ∧
    (∀ item ∈ otherCart.items,
      (∀ j ∈ c.items, j.productId ≠ item.productId) →
      item ∈ (c.mergeWith otherCart).items) := by
  refine ⟨rfl, cartInvariant_mergeWith c otherCart, ?_, ?_, ?_⟩
  · intro pid
    exact qtyOf_foldl_mergeInsert otherCart.items c.items pid
  · intro item hitem
    exact exists_price_foldl otherCart.items c.items hnd item hitem
  · intro item hitem hne
    exact mem_foldl_mergeInsert_append otherCart.items c.items hnd item hitem hne

/-- Scenario-5 item Q: product 2 at unit price 500. -/
def itemPotW : CartItem :=
  { itemId := 2, productId := 2, title := "Pot", quantity := 1, priceAtAdd := 500 }

/-- Scenario-5 item P in the guest cart: product 1, quantity 2 at 299. -/
def itemPlantGuestW : CartItem :=
  { itemId := 5, productId := 1, title := "Plant", quantity := 2, priceAtAdd := 299 }

/-- Scenario-5 user cart: product 2 (Q) quantity 1 at 500, with a coupon. -/
def userCartW : Cart :=
  { items := [itemPotW], subtotal := 500, coupon := some cartCouponSnapW,
    totalDiscount := some 179, finalTotal := some 321 }

/-- Scenario-5 guest cart: product 1 (P) quantity 2 at 299, no coupon. -/
def guestCartW : Cart :=
  { items := [itemPlantGuestW], subtotal := 598, coupon := none,
    totalDiscount := some 0, finalTotal := some 598 }

theorem mergeWith_spec_witness :
    (userCartW.mergeWith guestCartW).coupon = none ∧
    qtyOf 1 (userCartW.mergeWith guestCartW).items =
      qtyOf 1 userCartW.items + qtyOf 1 guestCartW.items :=
  ⟨(mergeWith_spec userCartW guestCartW (by simp [pidsNodup, guestCartW])).1,
   (mergeWith_spec userCartW guestCartW (by simp [pidsNodup, guestCartW])).2.2.1 1⟩

/-- The outcome object of validateStock when the product is active. -/
inductive StockCheck where
  | valid
  | invalid (maxAllowed : Int) (message : String)
  deriving DecidableEq

/-- validateStock from the cart controller: throws (error) for an inactive
product; flags invalid with maxAllowed = Math.max(0, stock - existingQuantity)
when existingQuantity + requestedQuantity exceeds stock. -/
def validateStock (product : Product) (requestedQuantity : Nat)
    (existingQuantity : Nat) : Except String StockCheck :=
  if !product.isActive then
    .error ("Product " ++ product.title ++ " is not available")
  else if product.stock < existingQuantity + requestedQuantity then
    .ok (.invalid (max 0 ((product.stock : Int) - (existingQuantity : Int)))
      ("Only " ++ toString product.stock ++ " units available for " ++
        product.title ++ ". You already have " ++ toString existingQuantity ++
        " in cart."))
  else .ok .valid

/-- The `cart.items.find(item => item.productId === productId)` lookup of
addToCart: quantity of the first matching item, 0 when absent. -/
def existingQuantityInCart (cart : Cart) (pid : Nat) : Nat :=
  match cart.items.find? (fun item => item.productId == pid) with
  | some item => item.quantity
  | none => 0

/-- The coupon-revalidation block of addToCart, run on the cart after addItem:
the coupon is dropped unless the live coupon exists, is valid, and is
applicable to the single-element list holding the newly added product id; a
kept coupon is re-applied with the discount recomputed over all items. -/
def addToCartCouponStep (findCoupon : String → Option Coupon) (now : Int)
    (product : Product) (cart1 : Cart) : Cart :=
  match cart1.coupon with
  | none => cart1
  | some cp =>
    match findCoupon cp.code with
    | none => cart1.removeCoupon
    | some coupon =>
      if !(isValid coupon now) || !(isApplicableToProducts coupon [product.id]) then
        cart1.removeCoupon
      else cart1.applyCoupon coupon (calculateDiscount coupon now cart1.items)

/-- The possible outcomes of the addToCart controller, starting after the
request validations and the product fetch; the insufficient-stock failure
carries the cart, which is left unmodified. -/
inductive AddToCartResult where
  | productUnavailable (message : String)
  | insufficientStock (message : String) (maxAllowed : Int) (cart : Cart)
  | success (message : String) (cart : Cart)
  deriving DecidableEq

/-- The addToCart controller (POST /cart/add) for a fetched product: stock
validation against the quantity already in the cart, engine addItem, then the
coupon revalidation step. findCoupon stands for Coupon.findOne({code}). -/
def addToCart (findCoupon : String → Option Coupon) (now : Int) (product : Product)
    (quantity : Nat) (newItemId : Nat) (cart : Cart) : AddToCartResult :=
  match validateStock product quantity (existingQuantityInCart cart product.id) with
  | .error m => .productUnavailable m
  | .ok (.invalid maxAllowed message) => .insufficientStock message maxAllowed cart
  | .ok .valid =>
    .success
      (if (cart.items.find? (fun item => item.productId == product.id)).isSome then
        "Cart item quantity updated"
      else "Item added to cart")
      (addToCartCouponStep findCoupon now product
        (cart.addItem product quantity product.price newItemId))

/-- A removedItems report entry: display title and reason string. -/
structure RemovedReport where
  title : String
  reason : String
  deriving DecidableEq

/-- The item-revalidation loop of getCart: drop items whose product is gone or
inactive, clamp quantity to stock when stock > 0, drop when stock is 0,
reporting each adjustment. -/
def revalidateItems (productLookup : Nat → Option Product) :
    List CartItem → List CartItem × List RemovedReport
  | [] => ([], [])
  | item :: rest =>
    let pr := revalidateItems productLookup rest
    match productLookup item.productId with
    | none =>
      (pr.1, { title := item.title, reason := "Product no longer available" } :: pr.2)
    | some product =>
      if !product.isActive then
        (pr.1, { title := item.title, reason := "Product no longer available" } :: pr.2)
      else if product.stock < item.quantity then
        if product.stock > 0 then
          ({ item with quantity := product.stock } :: pr.1,
           { title := item.title,
             reason := "Quantity reduced to " ++ toString product.stock ++
               " (available stock)" } :: pr.2)
        else
          (pr.1, { title := item.title, reason := "Out of stock" } :: pr.2)
      else (item :: pr.1, pr.2)

/-- The getCart controller (GET /cart): revalidate the items against the live
catalog, then revalidate the coupon - only when the pruned cart is non-empty -
with the `discountCalculation.discountAmount === 0` test, then recompute
totals; returns the cart and the removedItems reports. -/
def getCart (productLookup : Nat → Option Product)
    (findCoupon : String → Option Coupon) (now : Int) (cart : Cart) :
    Cart × List RemovedReport :=
  let pr := revalidateItems productLookup cart.items
  let cart1 : Cart := { cart with items := pr.1 }
  let step : Cart × List RemovedReport :=
    match cart1.coupon with
    | some cp =>
      if cart1.items.length > 0 then
        match findCoupon cp.code with
        | none =>
          (cart1.removeCoupon,
            pr.2 ++ [{ title := "Coupon", reason := "Coupon expired or invalid" }])
        | some coupon =>
          if !(isValid coupon now) then
            (cart1.removeCoupon,
              pr.2 ++ [{ title := "Coupon", reason := "Coupon expired or invalid" }])
          else
            let discountCalculation := calculateDiscount coupon now cart1.items
            if discountCalculation.discountAmount == some 0 then
              (cart1.removeCoupon,
                pr.2 ++
                  [{ title := "Coupon", reason := "No applicable products in cart" }])
            else (cart1.applyCoupon coupon discountCalculation, pr.2)
      else (cart1, pr.2)
    | none => (cart1, pr.2)
  (calculateFinalTotal step.1, step.2)

/-- The possible outcomes of the applyCoupon controller; each failure carries
the distinct message of the source, and the success outcome carries the
response discount fields, Option-valued where the source would read properties
off the bare number 0. -/
inductive ApplyCouponResult where
  | emptyCart (message : String)
  | invalidCode (message : String)
  | expiredOrInactive (message : String)
  | notApplicable (message : String)
  | zeroDiscount (message : String)
  | applied (cart : Cart) (code : String) (discountAmount : Option Nat)
      (applicableItemsCount : Option Nat)
  deriving DecidableEq

/-- The applyCoupon controller (POST /cart/apply-coupon), after the
code-present validation and the cart load: empty-cart check, coupon lookup by
uppercased code, isValid, isApplicableToProducts over the cart product ids,
then the `discountCalculation.discountAmount === 0` check before the engine
applyCoupon stores the coupon. -/
def jsToUpper (s : String) : String := ⟨s.data.map Char.toUpper⟩

def applyCouponController (findCoupon : String → Option Coupon) (now : Int)
    (cart : Cart) (code : String) : ApplyCouponResult :=
  if cart.items.length == 0 then .emptyCart "Cannot apply coupon to empty cart"
  else
    match findCoupon (jsToUpper code) with
    | none => .invalidCode "Invalid coupon code"
    | some coupon =>
      if !(isValid coupon now) then
        .expiredOrInactive "Coupon is expired or inactive"
      else if !(isApplicableToProducts coupon
          (cart.items.map (fun item => item.productId))) then
        .notApplicable "Coupon is not applicable to any products in your cart"
      else
        let discountCalculation := calculateDiscount coupon now cart.items
        if discountCalculation.discountAmount == some 0 then
          .zeroDiscount "Coupon cannot be applied to current cart items"
        else
          .applied (cart.applyCoupon coupon discountCalculation) coupon.code
            discountCalculation.discountAmount
            discountCalculation.applicableItemsCount

theorem removeCoupon_items (c : Cart) : c.removeCoupon.items = c.items := rfl

theorem removeCoupon_coupon (c : Cart) : c.removeCoupon.coupon = none := rfl

theorem applyCoupon_items (c : Cart) (couponData : Coupon) (d : DiscountResult) :
    (c.applyCoupon couponData d).items = c.items := rfl

theorem applyCoupon_coupon (c : Cart) (couponData : Coupon) (d : DiscountResult) :
    (c.applyCoupon couponData d).coupon = some
      { code := couponData.code, discountType := couponData.discountType,
        discountValue := couponData.discountValue,
        discountAmount := d.discountAmount,
        applicableProducts := couponData.applicableProducts } := rfl

theorem addItem_coupon (c : Cart) (product : Product)
    (quantity price newItemId : Nat) :
    (c.addItem product quantity price newItemId).coupon = c.coupon := by
  unfold Cart.addItem
  split <;> rfl

theorem addToCartCouponStep_items (findCoupon : String → Option Coupon) (now : Int)
    (product : Product) (cart1 : Cart) :
    (addToCartCouponStep findCoupon now product cart1).items = cart1.items := by
  unfold addToCartCouponStep
  split
  · rfl
  · split
    · rfl
    · split <;> rfl

theorem qtyOf_bumpQuantity (l : List CartItem) (pid q : Nat)
    (h : l.any (fun item => item.productId == pid) = true) :
    qtyOf pid (bumpQuantity l pid q) = qtyOf pid l + q := by
  induction l with
  | nil => simp at h
  | cons i rest ih =>
    by_cases hip : i.productId = pid
    · simp only [bumpQuantity,
        if_pos (show (i.productId == pid) = true by simpa using hip)]
      simp [qtyOf, hip]
      omega
    · simp only [bumpQuantity,
        if_neg (show ¬((i.productId == pid) = true) by simpa using hip)]
      have h2 : rest.any (fun item => item.productId == pid) = true := by
        simp only [List.any_cons, Bool.or_eq_true] at h
        rcases h with h | h
        · exact absurd (by simpa using h) hip
        · exact h
      simp only [qtyOf, if_neg hip]
      rw [ih h2]
      omega

theorem qtyOf_append_one (l : List CartItem) (j : CartItem) (pid : Nat) :
    qtyOf pid (l ++ [j]) =
      qtyOf pid l + (if j.productId = pid then j.quantity else 0) := by
  induction l with
  | nil => simp [qtyOf]
  | cons i rest ih =>
    simp only [List.cons_append, List.append_eq, qtyOf]
    rw [ih]
    omega

theorem qtyOf_addItem (c : Cart) (product : Product)
    (quantity price newItemId : Nat) :
    qtyOf product.id (c.addItem product quantity price newItemId).items =
      qtyOf product.id c.items + quantity := by
  unfold Cart.addItem
  split
  · rename_i hany
    show qtyOf product.id (bumpQuantity c.items product.id quantity) = _
    exact qtyOf_bumpQuantity c.items product.id quantity hany
  · show qtyOf product.id (c.items ++
      [{ itemId := newItemId, productId := product.id, title := product.title,
         quantity := quantity, priceAtAdd := price }]) = _
    rw [qtyOf_append_one]
    simp

theorem addToCart_insufficient (findCoupon : String → Option Coupon) (now : Int)
    (product : Product) (quantity newItemId : Nat) (cart : Cart)
    (hactive : product.isActive = true)
    (hlt : product.stock < existingQuantityInCart cart product.id + quantity) :
    addToCart findCoupon now product quantity newItemId cart =
      .insufficientStock
        ("Only " ++ toString product.stock ++ " units available for " ++
          product.title ++ ". You already have " ++
          toString (existingQuantityInCart cart product.id) ++ " in cart.")
        (max 0 ((product.stock : Int) -
          (existingQuantityInCart cart product.id : Int)))
        cart := by
  simp [addToCart, validateStock, hactive, hlt]

theorem addToCart_success (findCoupon : String → Option Coupon) (now : Int)
    (product : Product) (quantity newItemId : Nat) (cart : Cart)
    (hactive : product.isActive = true)
    (hle : existingQuantityInCart cart product.id + quantity ≤ product.stock) :
    addToCart findCoupon now product quantity newItemId cart =
      .success
        (if (cart.items.find? (fun item => item.productId == product.id)).isSome then
          "Cart item quantity updated"
        else "Item added to cart")
        (addToCartCouponStep findCoupon now product
          (cart.addItem product quantity product.price newItemId)) := by
  have hnot : ¬(product.stock < existingQuantityInCart cart product.id + quantity) :=
    not_lt.mpr hle
  simp [addToCart, validateStock, hactive, hnot]

/-- C7: on an active product, addToCart rejects with the insufficient-stock
outcome - reporting maxAllowed = max(0, stock minus the quantity already in the
cart) and leaving the cart unchanged - exactly when the in-cart quantity plus
the requested quantity exceeds stock; otherwise it succeeds and the quantity
held for that product grows by the requested amount. -/
theorem addToCart_stock_check (findCoupon : String → Option Coupon) (now : Int)
    (product : Product) (quantity newItemId : Nat) (cart : Cart)
    (hactive : product.isActive = true) :
    (product.stock < existingQuantityInCart cart product.id + quantity →
      ∃ message, addToCart findCoupon now product quantity newItemId cart =
        .insufficientStock message
          (max 0 ((product.stock : Int) -
            (existingQuantityInCart cart product.id : Int)))
          cart) ∧
    (existingQuantityInCart cart product.id + quantity ≤ product.stock →
      ∃ message cart2,
        addToCart findCoupon now product quantity newItemId cart =
          .success message cart2 ∧
        qtyOf product.id cart2.items = qtyOf product.id cart.items + quantity) := by
  constructor
  · intro hlt
    exact ⟨_, addToCart_insufficient findCoupon now product quantity newItemId cart
      hactive hlt⟩
  · intro hle
    refine ⟨_, _, addToCart_success findCoupon now product quantity newItemId cart
      hactive hle, ?_⟩
    rw [addToCartCouponStep_items]
    exact qtyOf_addItem cart product quantity product.price newItemId

/-- Scenario-6 product: stock 3, active. -/
def productStock3W : Product :=
  { id := 3, title := "Fern", sku := "SKU3", price := 100, stock := 3,
    isActive := true }

/-- Scenario-6 item: product 3 already held with quantity 2. -/
def itemFern2W : CartItem :=
  { itemId := 8, productId := 3, title := "Fern", quantity := 2, priceAtAdd := 100 }

/-- Scenario-6 cart holding quantity 2 of product 3. -/
def cartFern2W : Cart :=
  { items := [itemFern2W], subtotal := 200, coupon := none,
    totalDiscount := some 0, finalTotal := some 200 }

theorem addToCart_stock_check_witness :
    (max 0 ((productStock3W.stock : Int) -
      (existingQuantityInCart cartFern2W productStock3W.id : Int)) = 1) ∧
    ∃ message, addToCart (fun _ => none) 0 productStock3W 2 9 cartFern2W =
      AddToCartResult.insufficientStock message
        (max 0 ((productStock3W.stock : Int) -
          (existingQuantityInCart cartFern2W productStock3W.id : Int)))
        cartFern2W :=
  ⟨by decide,
   (addToCart_stock_check (fun _ => none) 0 productStock3W 2 9 cartFern2W rfl).1
     (by decide)⟩

/-- C10: when addToCart succeeds on a cart carrying a coupon snapshot, the
coupon is revalidated against only the newly added product id: it is dropped
when the live coupon is missing, invalid, or not applicable to that single
product id, and otherwise it is kept with its discount recomputed over all
items of the post-add cart. -/
theorem addToCart_coupon_revalidation (findCoupon : String → Option Coupon)
    (now : Int) (product : Product) (quantity newItemId : Nat) (cart : Cart)
    (cp : CartCoupon) (hcp : cart.coupon = some cp)
    (hactive : product.isActive = true)
    (hle : existingQuantityInCart cart product.id + quantity ≤ product.stock) :
    ∃ message cart2,
      addToCart findCoupon now product quantity newItemId cart =
        .success message cart2 ∧
      (findCoupon cp.code = none → cart2.coupon = none) ∧
      (∀ live, findCoupon cp.code = some live →
        (isValid live now = false → cart2.coupon = none) ∧
        (isValid live now = true → isApplicableToProducts live [product.id] = false →
          cart2.coupon = none) ∧
        (isValid live now = true → isApplicableToProducts live [product.id] = true →
          cart2.coupon = some
            { code := live.code, discountType := live.discountType,
              discountValue := live.discountValue,
              discountAmount := (calculateDiscount live now
                (cart.addItem product quantity product.price newItemId).items).discountAmount,
              applicableProducts := live.applicableProducts })) := by
  have hcp1 : (cart.addItem product quantity product.price newItemId).coupon
      = some cp := by
    rw [addItem_coupon]
    exact hcp
  refine ⟨_, _, addToCart_success findCoupon now product quantity newItemId cart
    hactive hle, ?_, ?_⟩
  · intro hnone
    simp only [addToCartCouponStep, hcp1, hnone]
    exact removeCoupon_coupon _
  · intro live hlive
    refine ⟨?_, ?_, ?_⟩
    · intro hinv
      simp [addToCartCouponStep, hcp1, hlive, hinv, removeCoupon_coupon]
    · intro hv happ
      simp [addToCartCouponStep, hcp1, hlive, hv, happ, removeCoupon_coupon]
    · intro hv happ
      simp [addToCartCouponStep, hcp1, hlive, hv, happ, applyCoupon_coupon]

/-- The live coupon directory holding only SAVE20. -/
def findCouponW : String → Option Coupon := fun code =>
  if code = "SAVE20" then some couponSAVE20 else none

/-- A second active product (id 2) outside the SAVE20 applicable set. -/
def productPot2W : Product :=
  { id := 2, title := "Pot", sku := "SKU2", price := 500, stock := 10,
    isActive := true }

theorem addToCart_coupon_revalidation_witness :
    ∃ message cart2,
      addToCart findCouponW 50 productPot2W 1 12 cartCouponW =
        AddToCartResult.success message cart2 ∧ cart2.coupon = none := by
  obtain ⟨message, cart2, heq, hnone, hsome⟩ :=
    addToCart_coupon_revalidation findCouponW 50 productPot2W 1 12 cartCouponW
      cartCouponSnapW rfl rfl (by decide)
  exact ⟨message, cart2, heq,
    (hsome couponSAVE20 (by decide)).2.1 (by decide) (by decide)⟩

/-- Product 1 as it appears in the live catalog of the C3 run: active, ample
stock. -/
def productPlantLive : Product :=
  { id := 1, title := "Plant", sku := "SKU1", price := 100, stock := 5,
    isActive := true }

/-- The live catalog used in the C3 run. -/
def productLookupBug : Nat → Option Product := fun pid =>
  if pid = 1 then some productPlantLive else none

/-- Live coupon SAVE10: valid, applicable only to product 2. -/
def couponSAVE10 : Coupon :=
  { code := "SAVE10", discountType := "percentage", discountValue := 10,
    applicableProducts := [2], startDate := 0, endDate := 100, isActive := true,
    usageCount := 0, maxUsage := none }

/-- The live coupon directory holding only SAVE10. -/
def findCouponBug : String → Option Coupon := fun code =>
  if code = "SAVE10" then some couponSAVE10 else none

/-- A line item of product 1: quantity 1 at price 100. -/
def itemStaleW : CartItem :=
  { itemId := 7, productId := 1, title := "Plant", quantity := 1, priceAtAdd := 100 }

/-- A stale SAVE10 snapshot whose frozen applicable set [2] no longer overlaps
the cart contents. -/
def snapSAVE10 : CartCoupon :=
  { code := "SAVE10", discountType := "percentage", discountValue := 10,
    discountAmount := some 30, applicableProducts := [2] }

/-- The C3 cart: one item of product 1 with the stale SAVE10 snapshot applied. -/
def cartStaleCoupon : Cart :=
  { items := [itemStaleW], subtotal := 100, coupon := some snapSAVE10,
    totalDiscount := some 30, finalTotal := some 70 }

/-- C3 (code bug): on this getCart run the pruning keeps the item, the coupon is
live and valid but its recomputed discount over the remaining items is the zero
discount (the bare 0, since no item is applicable) - the claim says the coupon
is then removed and reported as having no applicable products. Instead nothing
is reported and the coupon is re-applied with an undefined discount amount
(`(0).discountAmount === 0` is false in JavaScript), which drives finalTotal to
NaN (none). -/
theorem getCart_keeps_inapplicable_coupon :
    calculateDiscount couponSAVE10 50 cartStaleCoupon.items =
      DiscountResult.scalarZero ∧
    (getCart productLookupBug findCouponBug 50 cartStaleCoupon).2 = [] ∧
    (getCart productLookupBug findCouponBug 50 cartStaleCoupon).1.coupon =
      some { snapSAVE10 with discountAmount := none } ∧
    (getCart productLookupBug findCouponBug 50 cartStaleCoupon).1.finalTotal =
      none := by
  decide

/-- A zero-price line item of product 1. -/
def itemFreeW : CartItem :=
  { itemId := 3, productId := 1, title := "Freebie", quantity := 1, priceAtAdd := 0 }

/-- The C8 cart: a single zero-price item, consistent totals, no coupon. -/
def cartFreeItem : Cart :=
  { items := [itemFreeW], subtotal := 0, coupon := none, totalDiscount := some 0,
    finalTotal := some 0 }

/-- The live coupon directory used in the C8 run, holding only SAVE20. -/
def findCouponFree : String → Option Coupon := fun code =>
  if code = "SAVE20" then some couponSAVE20 else none

/-- The SAVE20 snapshot that the buggy path stores: its discount amount is the
undefined read off the bare number 0. -/
def snapSAVE20Undef : CartCoupon :=
  { code := "SAVE20", discountType := "percentage", discountValue := 20,
    discountAmount := none, applicableProducts := [1] }

/-- C8 (code bug): applying SAVE20 to the zero-price cart passes the first four
checks, and calculateDiscount yields the zero discount (the bare 0) - the claim
says the fifth check must then fail and leave the cart unmutated. Instead the
`discountCalculation.discountAmount === 0` test is false on the bare 0
(undefined === 0), so the controller stores a coupon snapshot with an undefined
discount amount and reports success. -/
theorem applyCoupon_zero_discount_bug :
    isApplicableToProducts couponSAVE20
      (cartFreeItem.items.map (fun item => item.productId)) = true ∧
    calculateDiscount couponSAVE20 50 cartFreeItem.items =
      DiscountResult.scalarZero ∧
    applyCouponController findCouponFree 50 cartFreeItem "SAVE20" =
      .applied (cartFreeItem.applyCoupon couponSAVE20 DiscountResult.scalarZero)
        "SAVE20" none none ∧
    (cartFreeItem.applyCoupon couponSAVE20 DiscountResult.scalarZero).coupon =
      some snapSAVE20Undef := by
  decide

end UrbanHub
